import Mathlib

/-!
Verification of the scenario transformation engine of the ICL ESG decision
tool (`app.py`).  The engine consists of four dataset transforms
(`apply_ghg_scenario`, `apply_water_scenario`, `apply_energy_scenario`,
`apply_waste_scenario`) and one composite scorer (`combined_esg_scenario`).

Modelling conventions:
* a pandas DataFrame column layout becomes a list of per-year records with
  one structure per domain; numeric values are exact rationals (ℚ);
* Python floor division `//` becomes `Int.floor` of the exact quotient;
* pandas `clip(lower) / clip(upper)` become `max` / `min`;
* Python `round(x, 2)` (round-half-to-even on the exact value) is modelled
  by `pyRound2` below.
-/

/-- One row of the GHG DataFrame: `Year`, `Scope 1+2 GHG`. -/
structure GHGRecord where
  year : Int
  scope12_ghg : ℚ
  deriving DecidableEq, Repr

/-- One row of the water DataFrame: `Year`, `Freshwater_m3`, `NonFreshwater_m3`. -/
structure WaterRecord where
  year : Int
  freshwater_m3 : ℚ
  nonFreshwater_m3 : ℚ
  deriving DecidableEq, Repr

/-- One row of the energy DataFrame: `Year`, `Total_Energy_GJ`, `Renewables_%`. -/
structure EnergyRecord where
  year : Int
  total_energy_gj : ℚ
  renewables_pct : ℚ
  deriving DecidableEq, Repr

/-- One row of the waste DataFrame: `Year`, `Hazardous_t`, `NonHazardous_t`. -/
structure WasteRecord where
  year : Int
  hazardous_t : ℚ
  nonHazardous_t : ℚ
  deriving DecidableEq, Repr

/-- The GHG baseline table built by `load_data`. -/
def df_ghg : List GHGRecord :=
  [⟨2018, 2.94⟩, ⟨2019, 2.65⟩, ⟨2020, 2.51⟩, ⟨2021, 2.54⟩, ⟨2022, 2.41⟩, ⟨2023, 2.29⟩]

/-- The water baseline table built by `load_data`. -/
def df_water : List WaterRecord :=
  [⟨2018, 20.2, 48.8⟩, ⟨2019, 19.8, 49.0⟩, ⟨2020, 19.1, 48.2⟩,
   ⟨2021, 20.2, 48.8⟩, ⟨2022, 19.6, 49.4⟩, ⟨2023, 17.4, 47.3⟩]

/-- The energy baseline table built by `load_data`. -/
def df_energy : List EnergyRecord :=
  [⟨2018, 35.3, 3⟩, ⟨2019, 36.5, 4⟩, ⟨2020, 33.8, 5⟩,
   ⟨2021, 34.0, 6⟩, ⟨2022, 35.1, 8⟩, ⟨2023, 36.4, 9⟩]

/-- The waste baseline table built by `load_data`. -/
def df_waste : List WasteRecord :=
  [⟨2018, 29.5, 5.5⟩, ⟨2019, 28.2, 22.3⟩, ⟨2020, 27.9, 38.5⟩,
   ⟨2021, 34.9, 32.0⟩, ⟨2022, 28.0, 10.5⟩, ⟨2023, 23.9, 21.5⟩]

/-- Python integer (floor) division by 10, on exact rationals. -/
def floordiv10 (x : ℚ) : ℚ := (⌊x / 10⌋ : ℚ)

/-- Python `round` to an integer on an exact rational: round half to even. -/
def pyRoundInt (x : ℚ) : ℤ :=
  if Int.fract x = 1 / 2 then (if 2 ∣ ⌊x⌋ then ⌊x⌋ else ⌊x⌋ + 1) else round x

/-- Python `round(x, 2)` on an exact rational. -/
def pyRound2 (x : ℚ) : ℚ := (pyRoundInt (x * 100) : ℚ) / 100

/-- `apply_ghg_scenario(df, additional_reduction_pct)`: scales the
`Scope 1+2 GHG` column by `1 - additional_reduction_pct / 100`. -/
def apply_ghg_scenario (df : List GHGRecord) (additional_reduction_pct : ℚ) :
    List GHGRecord :=
  df.map fun r =>
    { r with scope12_ghg := r.scope12_ghg * (1 - additional_reduction_pct / 100) }

/-- `apply_water_scenario(df, investment_m)`: `reduction_pct = (investment_m // 10) * 1`,
scales `Freshwater_m3` by `1 - reduction_pct / 100`, returns the pair of the
new table and `reduction_pct`. -/
def apply_water_scenario (df : List WaterRecord) (investment_m : ℚ) :
    List WaterRecord × ℚ :=
  let reduction_pct : ℚ := floordiv10 investment_m * 1
  (df.map fun r =>
    { r with freshwater_m3 := r.freshwater_m3 * (1 - reduction_pct / 100) },
   reduction_pct)

/-- `apply_energy_scenario(df, solar_mw_add)`: `step = solar_mw_add // 10`,
adds `step` to `Renewables_%` and clips the column at an upper bound of 100. -/
def apply_energy_scenario (df : List EnergyRecord) (solar_mw_add : ℚ) :
    List EnergyRecord :=
  let step : ℚ := floordiv10 solar_mw_add
  df.map fun r =>
    { r with renewables_pct := min (r.renewables_pct + step) 100 }

/-- `apply_waste_scenario(df, new_reuse_k)`: subtracts `0.5%` per reuse unit
from `Hazardous_t` and `0.3%` per reuse unit from `NonHazardous_t`, each
column clipped at a lower bound of 0. -/
def apply_waste_scenario (df : List WasteRecord) (new_reuse_k : ℚ) :
    List WasteRecord :=
  df.map fun r =>
    { r with
      hazardous_t := max (r.hazardous_t - r.hazardous_t * 0.005 * new_reuse_k) 0,
      nonHazardous_t := max (r.nonHazardous_t - r.nonHazardous_t * 0.003 * new_reuse_k) 0 }

/-- `combined_esg_scenario(ghg_red, water_inv, solar_mw, waste_reuse)`:
each dimension contributes `min(value / cap, 1) * 25` with caps 30, 50, 50, 10;
the sum is rounded to 2 decimal places. -/
def combined_esg_scenario (ghg_red water_inv solar_mw waste_reuse : ℚ) : ℚ :=
  let ghg_score := min (ghg_red / 30) 1 * 25
  let water_score := min (water_inv / 50) 1 * 25
  let solar_score := min (solar_mw / 50) 1 * 25
  let waste_score := min (waste_reuse / 10) 1 * 25
  let total_score := ghg_score + water_score + solar_score + waste_score
  pyRound2 total_score

/-- Every numeric field of a GHG record is non-negative. -/
def GHGNonneg (df : List GHGRecord) : Prop :=
  ∀ r ∈ df, 0 ≤ r.year ∧ 0 ≤ r.scope12_ghg

/-- Every numeric field of a water record is non-negative. -/
def WaterNonneg (df : List WaterRecord) : Prop :=
  ∀ r ∈ df, 0 ≤ r.year ∧ 0 ≤ r.freshwater_m3 ∧ 0 ≤ r.nonFreshwater_m3

/-- Every numeric field of an energy record is non-negative. -/
def EnergyNonneg (df : List EnergyRecord) : Prop :=
  ∀ r ∈ df, 0 ≤ r.year ∧ 0 ≤ r.total_energy_gj ∧ 0 ≤ r.renewables_pct

/-- Every numeric field of a waste record is non-negative. -/
def WasteNonneg (df : List WasteRecord) : Prop :=
  ∀ r ∈ df, 0 ≤ r.year ∧ 0 ≤ r.hazardous_t ∧ 0 ≤ r.nonHazardous_t

instance (df : List GHGRecord) : Decidable (GHGNonneg df) := by
  unfold GHGNonneg; infer_instance

instance (df : List WaterRecord) : Decidable (WaterNonneg df) := by
  unfold WaterNonneg; infer_instance

instance (df : List EnergyRecord) : Decidable (EnergyNonneg df) := by
  unfold EnergyNonneg; infer_instance

instance (df : List WasteRecord) : Decidable (WasteNonneg df) := by
  unfold WasteNonneg; infer_instance

/-- Clamping clause of the energy transform: whenever the baseline value plus
the step exceeds 100 at position `i`, the output at position `i` is exactly 100. -/
def RenewClamped (D : List EnergyRecord) (s : ℚ) : Prop :=
  ∀ (i : ℕ) (r : EnergyRecord), D[i]? = some r →
    100 < r.renewables_pct + floordiv10 s →
    (apply_energy_scenario D s)[i]?.map (·.renewables_pct) = some 100

lemma pyRoundInt_le (x : ℚ) : (pyRoundInt x : ℚ) ≤ x + 1 / 2 := by
  unfold pyRoundInt
  split_ifs with h1 h2
  · rw [← Int.self_sub_floor] at h1
    have hf : (⌊x⌋ : ℚ) = x - 1 / 2 := by linarith
    linarith [hf.le]
  · rw [← Int.self_sub_floor] at h1
    push_cast
    linarith
  · rw [round_eq]
    exact_mod_cast Int.floor_le (x + 1 / 2)

lemma le_pyRoundInt (x : ℚ) : x - 1 / 2 ≤ (pyRoundInt x : ℚ) := by
  unfold pyRoundInt
  split_ifs with h1 h2
  · rw [← Int.self_sub_floor] at h1
    linarith
  · rw [← Int.self_sub_floor] at h1
    push_cast
    linarith
  · rw [round_eq]
    have := Int.lt_floor_add_one (x + 1 / 2)
    push_cast at this ⊢
    linarith

lemma pyRoundInt_mono {x y : ℚ} (h : x ≤ y) : pyRoundInt x ≤ pyRoundInt y := by
  rcases eq_or_lt_of_le h with rfl | hlt
  · exact le_refl _
  · have h1 := pyRoundInt_le x
    have h2 := le_pyRoundInt y
    have h3 : (pyRoundInt x : ℚ) < (pyRoundInt y : ℚ) + 1 := by linarith
    have h4 : pyRoundInt x < pyRoundInt y + 1 := by exact_mod_cast h3
    omega

lemma pyRound2_mono {x y : ℚ} (h : x ≤ y) : pyRound2 x ≤ pyRound2 y := by
  unfold pyRound2
  have h1 : x * 100 ≤ y * 100 := by linarith
  have h2 : (pyRoundInt (x * 100) : ℚ) ≤ (pyRoundInt (y * 100) : ℚ) := by
    exact_mod_cast pyRoundInt_mono h1
  linarith

lemma pyRound2_nonneg {x : ℚ} (h : 0 ≤ x) : 0 ≤ pyRound2 x := by
  unfold pyRound2
  have h1 := le_pyRoundInt (x * 100)
  have h2 : (0 : ℤ) ≤ pyRoundInt (x * 100) := by
    by_contra hc
    push_neg at hc
    have h3 : pyRoundInt (x * 100) ≤ -1 := by omega
    have h4 : (pyRoundInt (x * 100) : ℚ) ≤ -1 := by exact_mod_cast h3
    nlinarith
  have h5 : (0 : ℚ) ≤ (pyRoundInt (x * 100) : ℚ) := by exact_mod_cast h2
  linarith

lemma pyRound2_le_100 {x : ℚ} (h : x ≤ 100) : pyRound2 x ≤ 100 := by
  unfold pyRound2
  have h1 := pyRoundInt_le (x * 100)
  have h2 : pyRoundInt (x * 100) ≤ 10000 := by
    by_contra hc
    push_neg at hc
    have h3 : (10001 : ℤ) ≤ pyRoundInt (x * 100) := by omega
    have h4 : (10001 : ℚ) ≤ (pyRoundInt (x * 100) : ℚ) := by exact_mod_cast h3
    nlinarith
  have h5 : (pyRoundInt (x * 100) : ℚ) ≤ 10000 := by exact_mod_cast h2
  linarith

/-- C1, counterexample: the claim fails as stated.  With the GHG baseline
record `⟨2018, 1⟩` and the non-negative scenario parameter 200, the GHG
transform produces the emissions value `-1`, which is negative. -/
theorem C1_counterexample :
    (apply_ghg_scenario [⟨2018, 1⟩] 200).map (·.scope12_ghg) = [-1] ∧
    ¬ (0 : ℚ) ≤ -1 := by
  constructor
  · simp [apply_ghg_scenario]; norm_num
  · norm_num

/-- C1, amended: for non-negative baselines and non-negative scenario
parameters whose implied reduction percentage is at most 100 (GHG:
`p ≤ 100`; water: `inv < 1010`, so `⌊inv / 10⌋ ≤ 100`), every numeric field
of the dataset returned by each of the four transforms is non-negative. -/
theorem C1_transforms_nonneg (p inv s k : ℚ)
    (hp0 : 0 ≤ p) (hp1 : p ≤ 100) (hinv0 : 0 ≤ inv) (hinv1 : inv < 1010)
    (hs : 0 ≤ s) (hk : 0 ≤ k) :
    (∀ dg : List GHGRecord, GHGNonneg dg → GHGNonneg (apply_ghg_scenario dg p)) ∧
    (∀ dw : List WaterRecord, WaterNonneg dw →
      WaterNonneg (apply_water_scenario dw inv).1) ∧
    (∀ de : List EnergyRecord, EnergyNonneg de →
      EnergyNonneg (apply_energy_scenario de s)) ∧
    (∀ dx : List WasteRecord, WasteNonneg dx →
      WasteNonneg (apply_waste_scenario dx k)) := by
  have hfac : (0 : ℚ) ≤ 1 - p / 100 := by linarith
  have hfloor100 : (⌊inv / 10⌋ : ℚ) ≤ 100 := by
    have h1 : ⌊inv / 10⌋ < 101 := Int.floor_lt.mpr (by linarith)
    have h2 : ⌊inv / 10⌋ ≤ 100 := by omega
    exact_mod_cast h2
  have hfloor0 : (0 : ℚ) ≤ (⌊inv / 10⌋ : ℚ) := by
    have h1 : 0 ≤ ⌊inv / 10⌋ := Int.floor_nonneg.mpr (by positivity)
    exact_mod_cast h1
  have hstep0 : (0 : ℚ) ≤ (⌊s / 10⌋ : ℚ) := by
    have h1 : 0 ≤ ⌊s / 10⌋ := Int.floor_nonneg.mpr (by positivity)
    exact_mod_cast h1
  refine ⟨?_, ?_, ?_, ?_⟩
  · intro dg h r hr
    rw [apply_ghg_scenario, List.mem_map] at hr
    obtain ⟨a, ha, rfl⟩ := hr
    obtain ⟨hy, hv⟩ := h a ha
    exact ⟨hy, mul_nonneg hv hfac⟩
  · intro dw h r hr
    rw [apply_water_scenario, List.mem_map] at hr
    obtain ⟨a, ha, rfl⟩ := hr
    obtain ⟨hy, hf, hnf⟩ := h a ha
    refine ⟨hy, ?_, hnf⟩
    have : (0 : ℚ) ≤ 1 - floordiv10 inv * 1 / 100 := by
      rw [floordiv10]
      linarith
    exact mul_nonneg hf this
  · intro de h r hr
    rw [apply_energy_scenario, List.mem_map] at hr
    obtain ⟨a, ha, rfl⟩ := hr
    obtain ⟨hy, ht, hrp⟩ := h a ha
    refine ⟨hy, ht, ?_⟩
    have : (0 : ℚ) ≤ a.renewables_pct + floordiv10 s := by
      rw [floordiv10]; linarith
    exact le_min this (by norm_num)
  · intro dx h r hr
    rw [apply_waste_scenario, List.mem_map] at hr
    obtain ⟨a, ha, rfl⟩ := hr
    obtain ⟨hy, _, _⟩ := h a ha
    exact ⟨hy, le_max_right _ _, le_max_right _ _⟩

/-- C1, witness: the amended non-negativity invariant instantiated on the
baseline tables of `load_data` with the slider defaults 10, 25, 20, 5. -/
theorem C1_transforms_nonneg_witness :
    GHGNonneg (apply_ghg_scenario df_ghg 10) ∧
    WaterNonneg (apply_water_scenario df_water 25).1 ∧
    EnergyNonneg (apply_energy_scenario df_energy 20) ∧
    WasteNonneg (apply_waste_scenario df_waste 5) := by
  have h := C1_transforms_nonneg 10 25 20 5 (by norm_num) (by norm_num)
    (by norm_num) (by norm_num) (by norm_num) (by norm_num)
  exact ⟨h.1 df_ghg (by norm_num [GHGNonneg, df_ghg]),
         h.2.1 df_water (by norm_num [WaterNonneg, df_water]),
         h.2.2.1 df_energy (by norm_num [EnergyNonneg, df_energy]),
         h.2.2.2 df_waste (by norm_num [WasteNonneg, df_waste])⟩

/-- C2: for every GHG dataset and every `p ∈ [0, 100]`, the transform
multiplies every emissions value by `1 - p / 100`, preserves the year
column (hence the year ordering), and preserves the record count. -/
theorem C2_ghg_formula (D : List GHGRecord) (p : ℚ) (hp0 : 0 ≤ p) (hp1 : p ≤ 100) :
    (apply_ghg_scenario D p).map (·.scope12_ghg)
      = D.map (fun r => r.scope12_ghg * (1 - p / 100)) ∧
    (apply_ghg_scenario D p).map (·.year) = D.map (·.year) ∧
    (apply_ghg_scenario D p).length = D.length := by
  refine ⟨?_, ?_, ?_⟩ <;> simp [apply_ghg_scenario, List.map_map, Function.comp]

/-- C2, witness: the pointwise formula on the `load_data` GHG baseline at 10%. -/
theorem C2_ghg_formula_witness :
    (apply_ghg_scenario df_ghg 10).map (·.scope12_ghg)
      = df_ghg.map (fun r => r.scope12_ghg * (1 - 10 / 100)) ∧
    (apply_ghg_scenario df_ghg 10).map (·.year) = df_ghg.map (·.year) ∧
    (apply_ghg_scenario df_ghg 10).length = df_ghg.length :=
  C2_ghg_formula df_ghg 10 (by norm_num) (by norm_num)

/-- C3, counterexample: the claim fails as stated.  At the four input
parameters `(-30, 0, 0, 0)` the scorer returns `-25`, which is outside
`[0, 100]`. -/
theorem C3_counterexample :
    combined_esg_scenario (-30) 0 0 0 = -25 ∧ ¬ (0 : ℚ) ≤ -25 := by
  constructor
  · norm_num [combined_esg_scenario, pyRound2, pyRoundInt, Int.fract, round_eq]
  · norm_num

/-- C3, amended: for every four NON-NEGATIVE input parameters the scorer
returns the sum over the four dimensions of `min(value / cap, 1) * 25` with
caps 30, 50, 50, 10, rounded to 2 decimal places, and the result lies in
`[0, 100]`; moreover `score(30,50,50,10) = 100`, `score(0,0,0,0) = 0` and
`score(60,100,100,100) = 100`. -/
theorem C3_score_formula (a b c d : ℚ)
    (ha : 0 ≤ a) (hb : 0 ≤ b) (hc : 0 ≤ c) (hd : 0 ≤ d) :
    combined_esg_scenario a b c d =
      pyRound2 (min (a / 30) 1 * 25 + min (b / 50) 1 * 25 +
                min (c / 50) 1 * 25 + min (d / 10) 1 * 25) ∧
    0 ≤ combined_esg_scenario a b c d ∧
    combined_esg_scenario a b c d ≤ 100 ∧
    combined_esg_scenario 30 50 50 10 = 100 ∧
    combined_esg_scenario 0 0 0 0 = 0 ∧
    combined_esg_scenario 60 100 100 100 = 100 := by
  have h0a : 0 ≤ min (a / 30) 1 * 25 :=
    mul_nonneg (le_min (by positivity) (by norm_num)) (by norm_num)
  have h0b : 0 ≤ min (b / 50) 1 * 25 :=
    mul_nonneg (le_min (by positivity) (by norm_num)) (by norm_num)
  have h0c : 0 ≤ min (c / 50) 1 * 25 :=
    mul_nonneg (le_min (by positivity) (by norm_num)) (by norm_num)
  have h0d : 0 ≤ min (d / 10) 1 * 25 :=
    mul_nonneg (le_min (by positivity) (by norm_num)) (by norm_num)
  have h1a : min (a / 30) 1 * 25 ≤ 25 := by
    have := min_le_right (a / 30) 1
    nlinarith
  have h1b : min (b / 50) 1 * 25 ≤ 25 := by
    have := min_le_right (b / 50) 1
    nlinarith
  have h1c : min (c / 50) 1 * 25 ≤ 25 := by
    have := min_le_right (c / 50) 1
    nlinarith
  have h1d : min (d / 10) 1 * 25 ≤ 25 := by
    have := min_le_right (d / 10) 1
    nlinarith
  refine ⟨rfl, ?_, ?_, ?_, ?_, ?_⟩
  · exact pyRound2_nonneg (by linarith)
  · exact pyRound2_le_100 (by linarith)
  · norm_num [combined_esg_scenario, pyRound2, pyRoundInt, Int.fract]
  · norm_num [combined_esg_scenario, pyRound2, pyRoundInt, Int.fract, round_eq]
  · norm_num [combined_esg_scenario, pyRound2, pyRoundInt, Int.fract]

/-- C3, witness: the amended statement instantiated at the slider defaults
`(10, 25, 20, 5)`. -/
theorem C3_score_formula_witness :
    combined_esg_scenario 10 25 20 5 =
      pyRound2 (min ((10 : ℚ) / 30) 1 * 25 + min ((25 : ℚ) / 50) 1 * 25 +
                min ((20 : ℚ) / 50) 1 * 25 + min ((5 : ℚ) / 10) 1 * 25) ∧
    0 ≤ combined_esg_scenario 10 25 20 5 ∧
    combined_esg_scenario 10 25 20 5 ≤ 100 ∧
    combined_esg_scenario 30 50 50 10 = 100 ∧
    combined_esg_scenario 0 0 0 0 = 0 ∧
    combined_esg_scenario 60 100 100 100 = 100 :=
  C3_score_formula 10 25 20 5 (by norm_num) (by norm_num) (by norm_num) (by norm_num)

/-- C4: for every water dataset and every investment amount, the returned
reduction percentage is the floor of `investment / 10` and every freshwater
value is the baseline one scaled by `1 - reduction_pct / 100`; an investment
of 25 yields reduction 2, and an investment of 0 yields reduction 0 with
freshwater unchanged. -/
theorem C4_water_formula (D : List WaterRecord) (inv : ℚ) :
    (apply_water_scenario D inv).2 = (⌊inv / 10⌋ : ℚ) ∧
    (apply_water_scenario D inv).1.map (·.freshwater_m3)
      = D.map (fun r => r.freshwater_m3 * (1 - (⌊inv / 10⌋ : ℚ) / 100)) ∧
    (apply_water_scenario D 25).2 = 2 ∧
    (apply_water_scenario D 0).2 = 0 ∧
    (apply_water_scenario D 0).1.map (·.freshwater_m3) = D.map (·.freshwater_m3) := by
  refine ⟨?_, ?_, ?_, ?_, ?_⟩
  · simp [apply_water_scenario, floordiv10]
  · simp [apply_water_scenario, floordiv10, List.map_map, Function.comp]
  · simp [apply_water_scenario, floordiv10]
    norm_num
  · simp [apply_water_scenario, floordiv10]
  · simp [apply_water_scenario, floordiv10]

/-- C5: for every energy dataset and every solar addition, every renewables
percentage becomes the baseline plus `⌊solar / 10⌋` clamped at 100; a
baseline of 9 with input 95 becomes 18, and any position pushed past 100 is
clamped to exactly 100 (`RenewClamped`). -/
theorem C5_energy_formula (D : List EnergyRecord) (s : ℚ) :
    (apply_energy_scenario D s).map (·.renewables_pct)
      = D.map (fun r => min (r.renewables_pct + (⌊s / 10⌋ : ℚ)) 100) ∧
    (apply_energy_scenario [⟨2023, 36.4, 9⟩] 95).map (·.renewables_pct) = [18] ∧
    RenewClamped D s := by
  refine ⟨?_, ?_, ?_⟩
  · simp [apply_energy_scenario, floordiv10, List.map_map, Function.comp]
  · simp [apply_energy_scenario, floordiv10]
    norm_num
  · intro i r hr hover
    have hmin : min (r.renewables_pct + floordiv10 s) 100 = 100 :=
      min_eq_right hover.le
    simp [apply_energy_scenario, List.getElem?_map, hr, hmin]

/-- C5, witness: on a record with renewables 95 and 95 MW of added solar,
the clamping clause fires and the output is exactly 100. -/
theorem C5_energy_formula_witness :
    (apply_energy_scenario [⟨2023, 36.4, 95⟩] 95)[0]?.map (·.renewables_pct)
      = some 100 :=
  (C5_energy_formula [⟨2023, 36.4, 95⟩] 95).2.2 0 ⟨2023, 36.4, 95⟩ rfl
    (by norm_num [floordiv10])

/-- C6: for every waste dataset and every reuse amount, each hazardous value
becomes `max 0 (h - h * 0.005 * reuse)` and each non-hazardous value becomes
`max 0 (n - n * 0.003 * reuse)`, clamped independently per field per year;
hazardous 23.9 with reuse 5 yields 23.3025. -/
theorem C6_waste_formula (D : List WasteRecord) (k : ℚ) :
    (apply_waste_scenario D k).map (·.hazardous_t)
      = D.map (fun r => max 0 (r.hazardous_t - r.hazardous_t * 0.005 * k)) ∧
    (apply_waste_scenario D k).map (·.nonHazardous_t)
      = D.map (fun r => max 0 (r.nonHazardous_t - r.nonHazardous_t * 0.003 * k)) ∧
    (apply_waste_scenario [⟨2023, 23.9, 21.5⟩] 5).map (·.hazardous_t) = [23.3025] := by
  refine ⟨?_, ?_, ?_⟩
  · simp [apply_waste_scenario, List.map_map, Function.comp, max_comm]
  · simp [apply_waste_scenario, List.map_map, Function.comp, max_comm]
  · simp [apply_waste_scenario]
    norm_num

/-- C7: the water transform leaves the non-freshwater column and the year
column unchanged, and the energy transform leaves the total-energy column
and the year column unchanged. -/
theorem C7_frame (Dw : List WaterRecord) (inv : ℚ)
    (De : List EnergyRecord) (s : ℚ) :
    (apply_water_scenario Dw inv).1.map (·.nonFreshwater_m3)
      = Dw.map (·.nonFreshwater_m3) ∧
    (apply_water_scenario Dw inv).1.map (·.year) = Dw.map (·.year) ∧
    (apply_energy_scenario De s).map (·.total_energy_gj)
      = De.map (·.total_energy_gj) ∧
    (apply_energy_scenario De s).map (·.year) = De.map (·.year) := by
  refine ⟨?_, ?_, ?_, ?_⟩ <;>
    simp [apply_water_scenario, apply_energy_scenario, List.map_map, Function.comp]

/-- C8: applying the GHG transform with a reduction of 0 returns the dataset
unchanged: every record and every field is identical. -/
theorem C8_zero_identity (D : List GHGRecord) : apply_ghg_scenario D 0 = D := by
  induction D with
  | nil => rfl
  | cons r t ih =>
    simp only [apply_ghg_scenario, List.map_cons] at ih ⊢
    rw [ih]
    cases r
    norm_num

/-- C9: each of the four transforms applied to the empty dataset returns the
empty dataset (and is total, hence does not fail), for every parameter. -/
theorem C9_empty (p inv s k : ℚ) :
    apply_ghg_scenario [] p = [] ∧
    (apply_water_scenario [] inv).1 = [] ∧
    apply_energy_scenario [] s = [] ∧
    apply_waste_scenario [] k = [] :=
  ⟨rfl, rfl, rfl, rfl⟩

/-- C10: the composite scorer is monotone non-decreasing in each of its four
arguments (stated jointly: raising any subset of the arguments never lowers
the score). -/
theorem C10_score_monotone (a a' b b' c c' d d' : ℚ)
    (ha : a ≤ a') (hb : b ≤ b') (hc : c ≤ c') (hd : d ≤ d') :
    combined_esg_scenario a b c d ≤ combined_esg_scenario a' b' c' d' := by
  unfold combined_esg_scenario
  apply pyRound2_mono
  have h1 : min (a / 30) 1 ≤ min (a' / 30) 1 := min_le_min (by linarith) le_rfl
  have h2 : min (b / 50) 1 ≤ min (b' / 50) 1 := min_le_min (by linarith) le_rfl
  have h3 : min (c / 50) 1 ≤ min (c' / 50) 1 := min_le_min (by linarith) le_rfl
  have h4 : min (d / 10) 1 ≤ min (d' / 10) 1 := min_le_min (by linarith) le_rfl
  nlinarith

/-- C10, witness: the all-zero scenario scores no higher than the all-maxed
scenario. -/
theorem C10_score_monotone_witness :
    combined_esg_scenario 0 0 0 0 ≤ combined_esg_scenario 30 50 50 10 :=
  C10_score_monotone 0 30 0 50 0 50 0 10 (by norm_num) (by norm_num)
    (by norm_num) (by norm_num)
